import Mathlib

/-!
Shallow embedding of the yoink Selenium driver
(`src/yoink/drivers/selenium.py`): locator resolution across iframe
boundaries with frame-context state, the interaction primitives, the
action-script interpreter, the network-idle classifier and the idle wait.
The browser is modelled by an environment mapping a frame context and an
XPath string to the element found there (if any); driver-level mutable
state (active frame, `last_hover_xpath`, number of `switch_default_frame`
calls) is threaded explicitly.
-/

namespace Yoink

/-- Python strings are modelled as lists of characters. -/
abbrev Str := List Char

/-- Does the first list occur as an initial segment of the second? -/
def strStartsWith : Str → Str → Bool
  | [], _ => true
  | _ :: _, [] => false
  | a :: as, b :: bs => (a == b) && strStartsWith as bs


/-- `str.partition(sep)` from Python, on the first occurrence of `sep`:
`some (before, after)` when `sep` occurs (`s = before ++ sep ++ after`,
first occurrence), `none` when it does not. -/
def splitOnFirst (sep : Str) : Str → Option (Str × Str)
  | [] => none
  | c :: rest =>
    if strStartsWith sep (c :: rest) then some ([], (c :: rest).drop sep.length)
    else
      match splitOnFirst sep rest with
      | some (b, a) => some (c :: b, a)
      | none => none

/-- Exceptions raised by the embedded driver code. -/
inductive PyErr
  /-- `selenium.common.exceptions.NoSuchElementException`. -/
  | noSuchElement (msg : Str)
  /-- Python `AttributeError`, raised when `with`-entering the `None`
  returned by `resolve_xpath` for a locator whose text before the next
  iframe marker is empty. -/
  | attributeError
  /-- The wrapped `Exception` raised by `SeleniumDriver.click` when both the
  native click and the move-then-click fallback fail. -/
  | clickFailed (xpath : Str)
  /-- `yoink.exceptions.NoElementException`. -/
  | noElement (msg : Str)
  /-- `yoink.exceptions.AmbiguousException`. -/
  | ambiguous (msg : Str)
  /-- Python `ValueError` (unknown action name in `exec_code`). -/
  | valueError (msg : Str)
  /-- Python `KeyError` on a missing mandatory argument key. -/
  | keyError (key : Str)
  /-- A YAML structural parse failure in `yaml.safe_load`. -/
  | parseError
  /-- `selenium.common.exceptions.TimeoutException`. -/
  | timeout
  /-- An exception raised by the downstream interaction inside a
  `with resolve_xpath(...)` block (abstract). -/
  | interactionError
deriving DecidableEq

instance {ε α : Type} [DecidableEq ε] [DecidableEq α] : DecidableEq (Except ε α) := fun a b =>
  match a, b with
  | .ok x, .ok y =>
    if h : x = y then isTrue (by rw [h]) else isFalse (fun he => h (Except.ok.inj he))
  | .error x, .error y =>
    if h : x = y then isTrue (by rw [h]) else isFalse (fun he => h (Except.error.inj he))
  | .ok _, .error _ => isFalse (fun he => Except.noConfusion he)
  | .error _, .ok _ => isFalse (fun he => Except.noConfusion he)

/-- How the browser reacts when an element is clicked, covering the
try/except ladder in `SeleniumDriver.click`: native click succeeds, is
intercepted with a successful move-then-click fallback, is intercepted with
a failing fallback, or fails with some other exception. -/
inductive ClickBehavior
  | ok
  | interceptedThenOk
  | interceptedThenFail
  | otherFail
deriving DecidableEq

/-- A DOM element as observed by the driver: its tag name, its `type`
attribute, its `<option>` values and visible texts (meaningful for
`<select>` elements), how clicking it behaves, whether `clear()` succeeds,
and whether the scrollable-parent lookup script finds a container. -/
structure DomElem where
  tag : Str
  typeAttr : Option Str := none
  optionValues : List Str := []
  optionTexts : List Str := []
  clickBehavior : ClickBehavior := .ok
  clearable : Bool := true
  hasScrollableParent : Bool := false
deriving DecidableEq

/-- The browser: `find f x` is the element that `find_element(By.XPATH, x)`
locates while the active frame context is `f` (`none` when the lookup
raises `NoSuchElementException`). A frame context is the list of iframe
XPaths descended into, `[]` being the default (top-level) content. -/
structure Env where
  find : List Str → Str → Option DomElem

/-- Driver-session mutable state: the active frame context, how many times
`switch_default_frame` has been called, and `last_hover_xpath`. -/
structure DriverState where
  frame : List Str
  resets : Nat
  lastHover : Option Str
deriving DecidableEq

/-- The payload of an `XPathResolved` handle: the xpath stored at the
terminal recursion level and the resolved element. -/
structure Resolved where
  xpath : Str
  elem : DomElem
deriving DecidableEq

/-- The substring `"iframe"` on which `resolve_xpath` partitions locators. -/
def iframeMarker : Str := "iframe".toList

/-- `SeleniumDriver.switch_default_frame`: reset to the top-level content
(and count the reset). -/
def switch_default_frame (st : DriverState) : DriverState :=
  { st with frame := [], resets := st.resets + 1 }

/-- `SeleniumDriver.resolve_xpath`, recursion worker. Fuel only bounds the
recursion depth for Lean; the wrapper passes `length + 1`, which always
suffices because each recursive call strictly shortens the string by at
least the marker length. Mirrors the source line by line: empty xpath
raises `NoSuchElementException("xpath is missing")`; xpath partitioned on
`"iframe"`; empty text before the marker returns `None` (not an error!);
no marker means a terminal `find_element` wrapped into a handle; otherwise
`switch_frame(before + sep)` (a `find_element` that may raise, then a
frame switch) and recursion on the remainder. -/
def resolveXPathAux (env : Env) : Nat → DriverState → Str →
    DriverState × Except PyErr (Option Resolved)
  | 0, st, _ => (st, .error (.noSuchElement "fuel exhausted".toList))
  | fuel + 1, st, x =>
    if x = [] then (st, .error (.noSuchElement "xpath is missing".toList))
    else
      match splitOnFirst iframeMarker x with
      | none =>
        match env.find st.frame x with
        | some e => (st, .ok (some ⟨x, e⟩))
        | none => (st, .error (.noSuchElement "no such element".toList))
      | some (before, after) =>
        if before = [] then (st, .ok none)
        else
          match env.find st.frame (before ++ iframeMarker) with
          | some _ =>
            resolveXPathAux env fuel
              { st with frame := st.frame ++ [before ++ iframeMarker] } after
          | none => (st, .error (.noSuchElement "no such element".toList))

/-- `SeleniumDriver.resolve_xpath` on an optional locator (`if not xpath`
covers both `None` and the empty string). -/
def resolve_xpath (env : Env) (st : DriverState) (x : Option Str) :
    DriverState × Except PyErr (Option Resolved) :=
  match x with
  | none => (st, .error (.noSuchElement "xpath is missing".toList))
  | some s => resolveXPathAux env (s.length + 1) st s

/-- Observable browser interactions performed by the primitives and the
interpreter (the `wait_for_idle` call after each interpreted step included). -/
inductive PEv
  | clicked (xpath : Option Str)
  | typed (value : Str) (enter : Bool)
  | selectedByValue (value : Str)
  | selectedByText (value : Str)
  | uploaded (path : Str)
  | hovered (xpath : Option Str)
  | scrolledContainer (dir : Str)
  | scrolledViewport (dir : Str)
  | scrolledPage (dir : Str)
  | waitedIdle
deriving DecidableEq

/-- The `with self.resolve_xpath(xpath) as r: <body>` pattern shared by the
primitives, with the body abstracted to whether it raises. A handle runs
`switch_default_frame` on exit (body success or body exception alike); a
resolution exception propagates before `__enter__`, so no reset happens;
`with None` (empty text before an iframe marker) raises `AttributeError`,
again without a reset. -/
def withScoped (env : Env) (st : DriverState) (x : Option Str) (bodyRaises : Bool) :
    DriverState × Except PyErr Unit :=
  match resolve_xpath env st x with
  | (st1, .error e) => (st1, .error e)
  | (st1, .ok none) => (st1, .error .attributeError)
  | (st1, .ok (some _)) =>
    (switch_default_frame st1, if bodyRaises then .error .interactionError else .ok ())

/-- `SeleniumDriver.click`: resolve, record `last_hover_xpath`, native
click with an intercepted-click fallback; both failure modes surface as a
wrapped exception naming the locator. -/
def click (env : Env) (st : DriverState) (x : Option Str) :
    DriverState × List PEv × Except PyErr Unit :=
  match resolve_xpath env st x with
  | (st1, .error e) => (st1, [], .error e)
  | (st1, .ok none) => (st1, [], .error .attributeError)
  | (st1, .ok (some r)) =>
    let st2 := { st1 with lastHover := x }
    match r.elem.clickBehavior with
    | .ok => (switch_default_frame st2, [.clicked x], .ok ())
    | .interceptedThenOk => (switch_default_frame st2, [.clicked x], .ok ())
    | .interceptedThenFail =>
      (switch_default_frame st2, [], .error (.clickFailed (x.getD [])))
    | .otherFail => (switch_default_frame st2, [], .error (.clickFailed (x.getD [])))

/-- `SeleniumDriver.hover`: resolve, record `last_hover_xpath`, move the
pointer to the element. -/
def hover (env : Env) (st : DriverState) (x : Option Str) :
    DriverState × List PEv × Except PyErr Unit :=
  match resolve_xpath env st x with
  | (st1, .error e) => (st1, [], .error e)
  | (st1, .ok none) => (st1, [], .error .attributeError)
  | (st1, .ok (some _)) =>
    (switch_default_frame { st1 with lastHover := x }, [.hovered x], .ok ())

/-- `SeleniumDriver.upload_file`: resolve, record `last_hover_xpath`, send
the file path to the element. -/
def upload_file (env : Env) (st : DriverState) (x : Option Str) (path : Str) :
    DriverState × List PEv × Except PyErr Unit :=
  match resolve_xpath env st x with
  | (st1, .error e) => (st1, [], .error e)
  | (st1, .ok none) => (st1, [], .error .attributeError)
  | (st1, .ok (some _)) =>
    (switch_default_frame { st1 with lastHover := x }, [.uploaded path], .ok ())

/-- `SeleniumDriver.dropdown_select`: resolve, record `last_hover_xpath`;
on a non-`select` element log and fall back to `self.click(xpath)`
(invoked inside the `with`, i.e. from the still-descended frame context);
otherwise `select_by_value`, then `select_by_visible_text` when no option
carries that value, and `NoSuchElementException` when both lookups fail. -/
def dropdown_select (env : Env) (st : DriverState) (x : Option Str) (value : Str) :
    DriverState × List PEv × Except PyErr Unit :=
  match resolve_xpath env st x with
  | (st1, .error e) => (st1, [], .error e)
  | (st1, .ok none) => (st1, [], .error .attributeError)
  | (st1, .ok (some r)) =>
    let st2 := { st1 with lastHover := x }
    if r.elem.tag ≠ "select".toList then
      match click env st2 x with
      | (st3, tr, res) => (switch_default_frame st3, tr, res)
    else if value ∈ r.elem.optionValues then
      (switch_default_frame st2, [.selectedByValue value], .ok ())
    else if value ∈ r.elem.optionTexts then
      (switch_default_frame st2, [.selectedByText value], .ok ())
    else
      (switch_default_frame st2, [],
        .error (.noSuchElement "could not locate option".toList))

/-- The code after the `with` block of `SeleniumDriver.set_value`: click
the element to focus it, then send select-all + delete + the value (and
Enter when requested) as one key sequence. `tr` carries the events already
emitted inside the `with` block. -/
def clickAndType (env : Env) (st : DriverState) (x : Option Str) (value : Str)
    (enter : Bool) (tr : List PEv) : DriverState × List PEv × Except PyErr Unit :=
  match click env st x with
  | (st4, trc, .error e) => (st4, tr ++ trc, .error e)
  | (st4, trc, .ok _) => (st4, tr ++ trc ++ [.typed value enter], .ok ())

/-- `SeleniumDriver.set_value`: resolve, record `last_hover_xpath`;
delegate `<select>` elements to `dropdown_select` and file inputs to
`upload_file` — both delegations sit inside the bare `try/except: pass`,
so when a delegation raises, the exception is swallowed and execution
falls through to the click-and-type path; otherwise best-effort `clear()`
(failure swallowed) followed by the click-and-type path. -/
def set_value (env : Env) (st : DriverState) (x : Option Str) (value : Str)
    (enter : Bool) : DriverState × List PEv × Except PyErr Unit :=
  match resolve_xpath env st x with
  | (st1, .error e) => (st1, [], .error e)
  | (st1, .ok none) => (st1, [], .error .attributeError)
  | (st1, .ok (some r)) =>
    let st2 := { st1 with lastHover := x }
    if r.elem.tag = "select".toList then
      match dropdown_select env st2 x value with
      | (st3, tr, .ok _) => (switch_default_frame st3, tr, .ok ())
      | (st3, tr, .error _) => clickAndType env (switch_default_frame st3) x value enter tr
    else if r.elem.tag = "input".toList ∧ r.elem.typeAttr = some "file".toList then
      match upload_file env st2 x value with
      | (st3, tr, .ok _) => (switch_default_frame st3, tr, .ok ())
      | (st3, tr, .error _) => clickAndType env (switch_default_frame st3) x value enter tr
    else
      clickAndType env (switch_default_frame st2) x value enter []

/-- `SeleniumDriver.get_scroll_anchor`: resolve `xpath_anchor or
self.last_hover_xpath` (Python falsiness: `None` and the empty string both
fall back to the last hovered locator) and return the scrollable parent or
the element itself. -/
def get_scroll_anchor (env : Env) (st : DriverState) (xa : Option Str) :
    DriverState × Except PyErr Resolved :=
  let target : Option Str :=
    match xa with
    | none => st.lastHover
    | some s => if s = [] then st.lastHover else some s
  match resolve_xpath env st target with
  | (st1, .error e) => (st1, .error e)
  | (st1, .ok none) => (st1, .error .attributeError)
  | (st1, .ok (some r)) => (switch_default_frame st1, .ok r)

/-- `SeleniumDriver.scroll`: anchor-based scrolling, catching only
`NoSuchElementException` to degrade to a page-level scroll; an explicit
non-empty anchor is recorded as `last_hover_xpath` after the gesture. -/
def scroll (env : Env) (st : DriverState) (xa : Option Str) (dir : Str) :
    DriverState × List PEv × Except PyErr Unit :=
  match get_scroll_anchor env st xa with
  | (st1, .ok r) =>
    let ev : PEv :=
      if r.elem.hasScrollableParent then .scrolledContainer dir else .scrolledViewport dir
    let st2 : DriverState :=
      match xa with
      | some s => if s = [] then st1 else { st1 with lastHover := some s }
      | none => st1
    (st2, [ev], .ok ())
  | (st1, .error (.noSuchElement _)) => (st1, [.scrolledPage dir], .ok ())
  | (st1, .error e) => (st1, [], .error e)

/-- The argument mapping of one parsed action: `args.get("xpath", None)`
and the optional `value` field (already a string after parsing). -/
structure ActionArgs where
  xpath : Option Str := none
  value : Option Str := none
deriving DecidableEq

/-- One parsed step: `{action: {name: ..., args: {...}}}`. -/
structure ScriptAction where
  name : Str
  args : ActionArgs
deriving DecidableEq

/-- One parsed document entry, with its `actions` sequence. -/
structure ScriptItem where
  actions : List ScriptAction
deriving DecidableEq

/-- What `yaml.safe_load` produced: a single mapping or a list of them
(`if not isinstance(data, List): data = [data]`). -/
inductive YamlDoc
  | single (item : ScriptItem)
  | multi (items : List ScriptItem)
deriving DecidableEq

def normalizeDoc : YamlDoc → List ScriptItem
  | .single i => [i]
  | .multi l => l

/-- The closed action-name set of the `match` in `SeleniumDriver.exec_code`. -/
def KnownName (n : Str) : Prop :=
  n = "click".toList ∨ n = "setValue".toList ∨ n = "setValueAndEnter".toList ∨
    n = "dropdownSelect".toList ∨ n = "hover".toList ∨ n = "scroll".toList ∨
    n = "failNoElement".toList ∨ n = "failAmbiguous".toList

instance (n : Str) : Decidable (KnownName n) := by
  unfold KnownName; infer_instance

/-- The `match action_name` dispatch of `SeleniumDriver.exec_code`:
the six interaction primitives, the two deliberate failure actions
(`args["value"]` raising `KeyError` when absent), and a `ValueError` for
any name outside the closed set. -/
def dispatchAction (env : Env) (st : DriverState) (a : ScriptAction) :
    DriverState × List PEv × Except PyErr Unit :=
  let x := a.args.xpath
  if a.name = "click".toList then click env st x
  else if a.name = "setValue".toList then
    match a.args.value with
    | some v => set_value env st x v false
    | none => (st, [], .error (.keyError "value".toList))
  else if a.name = "setValueAndEnter".toList then
    match a.args.value with
    | some v => set_value env st x v true
    | none => (st, [], .error (.keyError "value".toList))
  else if a.name = "dropdownSelect".toList then
    match a.args.value with
    | some v => dropdown_select env st x v
    | none => (st, [], .error (.keyError "value".toList))
  else if a.name = "hover".toList then hover env st x
  else if a.name = "scroll".toList then
    scroll env st x (a.args.value.getD "DOWN".toList)
  else if a.name = "failNoElement".toList then
    match a.args.value with
    | some v => (st, [], .error (.noElement ("No element: ".toList ++ v)))
    | none => (st, [], .error (.keyError "value".toList))
  else if a.name = "failAmbiguous".toList then
    match a.args.value with
    | some v => (st, [], .error (.ambiguous ("Ambiguous: ".toList ++ v)))
    | none => (st, [], .error (.keyError "value".toList))
  else (st, [], .error (.valueError ("Unknown action: ".toList ++ a.name)))

/-- The inner `for action in item["actions"]` loop of `exec_code`: dispatch
each step in order; a raised exception aborts the rest immediately; after
every successfully dispatched step, `self.wait_for_idle()` runs (an event —
by `wait_for_idle`'s contract it never raises) before the next step. -/
def execActionsLoop (env : Env) : DriverState → List ScriptAction →
    DriverState × List PEv × Except PyErr Unit
  | st, [] => (st, [], .ok ())
  | st, a :: rest =>
    match dispatchAction env st a with
    | (st1, tr, .error e) => (st1, tr, .error e)
    | (st1, tr, .ok _) =>
      match execActionsLoop env st1 rest with
      | (st2, tr2, r) => (st2, tr ++ PEv.waitedIdle :: tr2, r)

/-- The outer `for item in data` loop of `exec_code`. -/
def execItems (env : Env) : DriverState → List ScriptItem →
    DriverState × List PEv × Except PyErr Unit
  | st, [] => (st, [], .ok ())
  | st, it :: rest =>
    match execActionsLoop env st it.actions with
    | (st1, tr, .error e) => (st1, tr, .error e)
    | (st1, tr, .ok _) =>
      match execItems env st1 rest with
      | (st2, tr2, r) => (st2, tr ++ tr2, r)

/-- `SeleniumDriver.exec_code`. The textual stage (`quote_numeric_yaml_values`
followed by `yaml.safe_load`) is abstracted into its outcome: either a
structural parse error — a hard error before any step runs — or the loaded
document. -/
def exec_code (env : Env) (st : DriverState) (parsed : Except PyErr YamlDoc) :
    DriverState × List PEv × Except PyErr Unit :=
  match parsed with
  | .error e => (st, [], .error e)
  | .ok d => execItems env st (normalizeDoc d)

/-- Number of `wait_for_idle` invocations recorded in a trace. -/
def countIdle : List PEv → Nat
  | [] => 0
  | .waitedIdle :: tr => countIdle tr + 1
  | _ :: tr => countIdle tr

/-- One entry of the Chrome performance log, as classified by
`SeleniumDriver.is_idle` (any other method is ignored). -/
inductive LogEvent
  | requestWillBeSent (id : Str)
  | loadingFinished (id : Str)
  | loadingFailed (id : Str)
  | frameStartedLoading
  | downloadWillBegin
  | frameStoppedLoading
  | downloadProgress (state : Str)
  | otherMethod
deriving DecidableEq

/-- Python `set.add`: no-op when already present (the list stays
duplicate-free). -/
def setAdd (s : List Str) (v : Str) : List Str := if v ∈ s then s else s ++ [v]

/-- Python `set.discard`: remove when present. -/
def setDiscard (s : List Str) (v : Str) : List Str := s.filter (· ≠ v)

/-- The per-log-entry transition of `is_idle`'s fold over
`(request_ids, active)`. -/
def idleStep (acc : List Str × Int) (ev : LogEvent) : List Str × Int :=
  match ev with
  | .requestWillBeSent id => (setAdd acc.1 id, acc.2)
  | .loadingFinished id => (setDiscard acc.1 id, acc.2)
  | .loadingFailed id => (setDiscard acc.1 id, acc.2)
  | .frameStartedLoading => (acc.1, acc.2 + 1)
  | .downloadWillBegin => (acc.1, acc.2 + 1)
  | .frameStoppedLoading => (acc.1, acc.2 - 1)
  | .downloadProgress s =>
    if s = "completed".toList ∨ s = "canceled".toList then (acc.1, acc.2 - 1) else acc
  | .otherMethod => acc

/-- `SeleniumDriver.is_idle`: fold the performance log into the in-flight
request-id set and the signed load/download counter, and report idle when
the set is empty and the counter is at most zero. -/
def is_idle (logs : List LogEvent) : Bool :=
  let r := logs.foldl idleStep ([], 0)
  decide (r.1 = []) && decide (r.2 ≤ 0)

/-- The pending-request set alone, as the spec words it: identifiers added
on request-sent, removed on request-finished or request-failed. -/
def pendingStep (s : List Str) (ev : LogEvent) : List Str :=
  match ev with
  | .requestWillBeSent id => setAdd s id
  | .loadingFinished id => setDiscard s id
  | .loadingFailed id => setDiscard s id
  | _ => s

def pendingRequests (logs : List LogEvent) : List Str :=
  logs.foldl pendingStep []

/-- The load/download counter alone, as the spec words it: incremented on
frame-started-loading and download-began, decremented on
frame-stopped-loading and download-completed-or-canceled. -/
def counterStep (a : Int) (ev : LogEvent) : Int :=
  match ev with
  | .frameStartedLoading => a + 1
  | .downloadWillBegin => a + 1
  | .frameStoppedLoading => a - 1
  | .downloadProgress s =>
    if s = "completed".toList ∨ s = "canceled".toList then a - 1 else a
  | _ => a

def loadCounter (logs : List LogEvent) : Int :=
  logs.foldl counterStep 0

/-- Python 3 `round` on a rational: nearest integer, ties to even. -/
def pyRound (q : ℚ) : ℤ :=
  if q - ⌊q⌋ < 1 / 2 then ⌊q⌋
  else if q - ⌊q⌋ > 1 / 2 then ⌊q⌋ + 1
  else if 2 ∣ ⌊q⌋ then ⌊q⌋ else ⌊q⌋ + 1

/-- `SeleniumDriver.wait_for_dom_stable`: the millisecond budget handed to
the DOM-quiescence script, `max(0, round(timeout * 1000))`. -/
def wait_for_dom_stable (timeout : ℚ) : ℤ := max 0 (pyRound (timeout * 1000))

/-- The `WebDriverWait(...).until(lambda d: self.is_idle())` call: either
the network-idle poll succeeded after `elapsed` seconds, or it raised
`TimeoutException`. -/
def webDriverWaitUntil (net : Option ℚ) : Except PyErr ℚ :=
  match net with
  | some elapsed => .ok elapsed
  | none => .error .timeout

/-- `SeleniumDriver.wait_for_idle`: the network-idle poll, then the
DOM-quiescence wait with the remaining budget, in a `try` whose
`except TimeoutException: pass` absorbs the timeout. `net` is the
network-poll outcome and `domTimesOut` whether the DOM phase raises
`TimeoutException` itself. The result carries the DOM budget when that
phase ran. -/
def wait_for_idle_run (timeoutCfg : ℚ) (net : Option ℚ) (domTimesOut : Bool) :
    Except PyErr (Option ℤ) :=
  let body : Except PyErr (Option ℤ) :=
    match webDriverWaitUntil net with
    | .error e => .error e
    | .ok elapsed =>
      if domTimesOut then .error .timeout
      else .ok (some (wait_for_dom_stable (timeoutCfg - elapsed)))
  match body with
  | .error .timeout => .ok none
  | r => r

/-- A YAML-ish scalar: what a `value` field becomes after structural
parsing. -/
inductive YamlScalar
  | num (v : ℚ)
  | str (s : Str)
deriving DecidableEq

/-- Numeric-looking in the sense of the defensive quoting: nonempty, made
of digits and dots. -/
def isNumericLooking (s : Str) : Bool :=
  decide (s ≠ []) && s.all (fun c => c.isDigit || decide (c = '.'))

/-- Modelled from the spec: `quote_numeric_yaml_values` is referenced by
`exec_code` but absent from the sources; per the spec it defensively
quotes numeric-looking argument values before structural parsing. At the
scalar level: wrap a numeric-looking `value` token in double quotes,
leave anything else alone. -/
def quote_numeric_value (s : Str) : Str :=
  if isNumericLooking s then '"' :: (s ++ ['"']) else s

def parseDigits (l : Str) : ℕ := l.foldl (fun a c => a * 10 + (c.toNat - 48)) 0

/-- Modelled from the spec: the numeric coercion a structural parser
applies to an unquoted numeric-looking token (so `1.10` becomes the
number `11/10`, no longer the two-character fraction part). -/
def parseNumericToken (s : Str) : ℚ :=
  match splitOnFirst ['.'] s with
  | none => (parseDigits s : ℚ)
  | some (ipart, fpart) =>
    (parseDigits ipart : ℚ) + (parseDigits fpart : ℚ) / ((10 : ℚ) ^ fpart.length)

/-- Modelled from the spec: scalar parsing of a `value` token — a
double-quoted token is delivered verbatim as a string; an unquoted token
with at most one dot and only digits is coerced to a number; anything else
stays a string. -/
def parseScalarToken (s : Str) : YamlScalar :=
  if s.head? = some '"' ∧ s.getLast? = some '"' ∧ 2 ≤ s.length then
    .str ((s.drop 1).dropLast)
  else if isNumericLooking s && decide (s.count '.' ≤ 1) then
    .num (parseNumericToken s)
  else .str s

/-- A fresh session: default frame context, no resets, nothing hovered. -/
def st0 : DriverState := ⟨[], 0, none⟩

def frameElem : DomElem := { tag := "iframe".toList }

/-- A `<select>` with one option of value `"a"` and visible text `"A"`. -/
def selElem : DomElem :=
  { tag := "select".toList, optionValues := ["a".toList], optionTexts := ["A".toList] }

/-- A browser holding only the iframe `"//a/iframe"` at top level — the
terminal element inside it does not exist. -/
def envC1 : Env :=
  ⟨fun f x => if f = [] ∧ x = "//a/iframe".toList then some frameElem else none⟩

/-- A browser with the iframe `"//a/iframe"` at top level and a button at
`"//b"` inside it. -/
def envNested : Env :=
  ⟨fun f x =>
    if f = [] ∧ x = "//a/iframe".toList then some frameElem
    else if f = ["//a/iframe".toList] ∧ x = "//b".toList then
      some { tag := "button".toList }
    else none⟩

/-- A browser with the select element at top-level `"//s"`. -/
def envSel : Env :=
  ⟨fun f x => if f = [] ∧ x = "//s".toList then some selElem else none⟩

/-- A browser with a button at `"//b"` whose click is intercepted and whose
move-then-click fallback also fails. -/
def envBtn : Env :=
  ⟨fun f x =>
    if f = [] ∧ x = "//b".toList then
      some { tag := "button".toList, clickBehavior := .interceptedThenFail }
    else none⟩

/-- A browser with no elements at all. -/
def envEmpty : Env := ⟨fun _ _ => none⟩

theorem strStartsWith_length {pre l : Str} (h : strStartsWith pre l = true) :
    pre.length ≤ l.length := by
  induction pre generalizing l with
  | nil => simp
  | cons a as ih =>
    cases l with
    | nil => simp [strStartsWith] at h
    | cons b bs =>
      simp only [strStartsWith, Bool.and_eq_true, beq_iff_eq] at h
      simpa using ih h.2

theorem splitOnFirst_length {sep x b a : Str} (h : splitOnFirst sep x = some (b, a)) :
    x.length = b.length + sep.length + a.length := by
  induction x generalizing b with
  | nil => simp [splitOnFirst] at h
  | cons c rest ih =>
    rw [splitOnFirst] at h
    split at h
    · next hs =>
      have hle := strStartsWith_length hs
      injection h with h'
      injection h' with hb ha
      subst hb
      subst ha
      simp only [List.length_drop, List.length_nil, List.length_cons] at hle ⊢
      omega
    · next hs =>
      split at h
      · next b' a' heq =>
        injection h with h'
        injection h' with hb ha
        subst hb
        subst ha
        have := ih heq
        simp only [List.length_cons]
        omega
      · exact absurd h (by simp)

theorem resolveXPathAux_state (env : Env) :
    ∀ (fuel : Nat) (st : DriverState) (x : Str),
      (resolveXPathAux env fuel st x).1.resets = st.resets ∧
        (resolveXPathAux env fuel st x).1.lastHover = st.lastHover := by
  intro fuel
  induction fuel with
  | zero => intro st x; exact ⟨rfl, rfl⟩
  | succ n ih =>
    intro st x
    rw [resolveXPathAux]
    split
    · exact ⟨rfl, rfl⟩
    · split
      · split
        · exact ⟨rfl, rfl⟩
        · exact ⟨rfl, rfl⟩
      · split
        · exact ⟨rfl, rfl⟩
        · split
          · exact ih _ _
          · exact ⟨rfl, rfl⟩

theorem resolve_xpath_state (env : Env) (st : DriverState) (x : Option Str) :
    (resolve_xpath env st x).1.resets = st.resets ∧
      (resolve_xpath env st x).1.lastHover = st.lastHover := by
  cases x with
  | none => exact ⟨rfl, rfl⟩
  | some s => exact resolveXPathAux_state env _ st s

theorem foldl_idleStep_split (logs : List LogEvent) :
    ∀ (s : List Str) (a : Int),
      logs.foldl idleStep (s, a) = (logs.foldl pendingStep s, logs.foldl counterStep a) := by
  induction logs with
  | nil => intro s a; rfl
  | cons ev rest ih =>
    intro s a
    have hstep : idleStep (s, a) ev = (pendingStep s ev, counterStep a ev) := by
      cases ev with
      | downloadProgress d =>
        simp only [idleStep, pendingStep, counterStep]
        split <;> rfl
      | _ => rfl
    simp only [List.foldl_cons, hstep, ih]

/-- C1 counterexample: for the locator `"//a/iframe//b"` in a browser where
the iframe resolves but the terminal element inside it does not, the
scoped resolution raises after descending; afterwards the active frame
context is the iframe, not the default, and zero frame-context resets were
performed — refuting the claim's "success or raise" clause. -/
theorem scoped_resolution_reset_counterexample :
    (withScoped envC1 st0 (some "//a/iframe//b".toList) false).1.frame =
        ["//a/iframe".toList] ∧
      (withScoped envC1 st0 (some "//a/iframe//b".toList) false).1.resets = 0 ∧
      (withScoped envC1 st0 (some "//a/iframe//b".toList) false).2 =
        .error (.noSuchElement "no such element".toList) := by
  exact ⟨by decide, by decide, by decide⟩

/-- C1 (amended): when a top-level scoped resolution yields a handle, the
handle's release resets the frame context to the default and performs
exactly one reset — regardless of how many iframe levels were traversed
and even if the downstream interaction raises; when the resolution itself
raises, the exception propagates and no reset is performed. -/
theorem scoped_resolution_reset :
    ∀ (env : Env) (st st1 : DriverState) (x : Option Str) (bodyRaises : Bool),
      (∀ r : Resolved, resolve_xpath env st x = (st1, .ok (some r)) →
        (withScoped env st x bodyRaises).1.frame = [] ∧
          (withScoped env st x bodyRaises).1.resets = st.resets + 1) ∧
      (∀ e : PyErr, resolve_xpath env st x = (st1, .error e) →
        withScoped env st x bodyRaises = (st1, .error e) ∧ st1.resets = st.resets) := by
  intro env st st1 x b
  constructor
  · intro r h
    have hres := (resolve_xpath_state env st x).1
    rw [h] at hres
    have hres' : st1.resets = st.resets := hres
    unfold withScoped
    rw [h]
    exact ⟨rfl, by simp [switch_default_frame, hres']⟩
  · intro e h
    have hres := (resolve_xpath_state env st x).1
    rw [h] at hres
    have hres' : st1.resets = st.resets := hres
    unfold withScoped
    rw [h]
    exact ⟨rfl, hres'⟩

theorem scoped_resolution_reset_witness :
    (withScoped envNested st0 (some "//a/iframe//b".toList) true).1.frame = [] ∧
      (withScoped envNested st0 (some "//a/iframe//b".toList) true).1.resets = 1 := by
  have h := (scoped_resolution_reset envNested st0 ⟨["//a/iframe".toList], 0, none⟩
      (some "//a/iframe//b".toList) true).1
      ⟨"//b".toList, { tag := "button".toList }⟩ (by decide)
  exact h

/-- C2: the network-idle classifier returns true iff the pending
request-id set (added on request-sent, removed on request-finished or
request-failed) is empty and the load/download counter is at most zero; on
the log [A sent, B sent, A finished, B failed] it becomes true only once
both A and B have left the pending set; a negative counter counts as
idle. -/
theorem is_idle_iff_pending_empty_and_counter_nonpos :
    (∀ logs : List LogEvent,
        is_idle logs = true ↔ (pendingRequests logs = [] ∧ loadCounter logs ≤ 0)) ∧
      is_idle [.requestWillBeSent "A".toList] = false ∧
      is_idle [.requestWillBeSent "A".toList, .requestWillBeSent "B".toList] = false ∧
      is_idle [.requestWillBeSent "A".toList, .requestWillBeSent "B".toList,
        .loadingFinished "A".toList] = false ∧
      is_idle [.requestWillBeSent "A".toList, .requestWillBeSent "B".toList,
        .loadingFinished "A".toList, .loadingFailed "B".toList] = true ∧
      is_idle [.frameStoppedLoading] = true := by
  refine ⟨?_, by decide, by decide, by decide, by decide, by decide⟩
  intro logs
  unfold is_idle pendingRequests loadCounter
  rw [foldl_idleStep_split]
  simp

/-- C4 (spec-modelled; `quote_numeric_yaml_values` is not in the sources):
quoting a numeric-looking value token before structural parsing delivers
it as exactly the string it was written as, whereas the unquoted
version-number-like token `1.10` would have been coerced to the number
`11/10`. -/
theorem numeric_values_quoted_roundtrip :
    (∀ s : Str, isNumericLooking s = true →
        parseScalarToken (quote_numeric_value s) = .str s) ∧
      parseScalarToken "1.10".toList = .num (11 / 10) := by
  constructor
  · intro s h
    have hq : quote_numeric_value s = '"' :: (s ++ ['"']) := by
      unfold quote_numeric_value
      rw [if_pos h]
    have hc : ('"' :: (s ++ ['"'])).head? = some '"' ∧
        ('"' :: (s ++ ['"'])).getLast? = some '"' ∧ 2 ≤ ('"' :: (s ++ ['"'])).length := by
      refine ⟨rfl, ?_, by simp⟩
      rw [show ('"' :: (s ++ ['"'])) = ('"' :: s) ++ ['"'] from rfl]
      exact List.getLast?_concat _
    rw [hq]
    unfold parseScalarToken
    rw [if_pos hc]
    simp [List.dropLast_concat]
  · have h1 : parseScalarToken "1.10".toList =
        .num ((parseDigits "1".toList : ℚ) +
          (parseDigits "10".toList : ℚ) / (10 : ℚ) ^ (2 : ℕ)) := rfl
    have h2 : parseDigits "1".toList = 1 := rfl
    have h3 : parseDigits "10".toList = 10 := rfl
    rw [h1, h2, h3]
    congr 1
    push_cast
    norm_num

theorem numeric_values_quoted_roundtrip_witness :
    isNumericLooking "1.10".toList = true ∧
      parseScalarToken (quote_numeric_value "1.10".toList) = .str "1.10".toList :=
  ⟨by decide, numeric_values_quoted_roundtrip.1 "1.10".toList (by decide)⟩

/-- C5: `wait_for_idle` never raises — a network-poll timeout and a
DOM-phase timeout are both absorbed by the `except TimeoutException: pass`
— and the millisecond budget handed to the DOM-quiescence phase is clamped
to be non-negative. -/
theorem wait_for_idle_never_raises :
    ∀ (timeoutCfg : ℚ) (net : Option ℚ) (domTimesOut : Bool),
      (∃ v, wait_for_idle_run timeoutCfg net domTimesOut = .ok v) ∧
        ∀ b : ℤ, wait_for_idle_run timeoutCfg net domTimesOut = .ok (some b) → 0 ≤ b := by
  intro T net d
  cases net with
  | none =>
    refine ⟨⟨none, rfl⟩, ?_⟩
    intro b hb
    simp [wait_for_idle_run, webDriverWaitUntil] at hb
  | some e =>
    cases d with
    | true =>
      refine ⟨⟨none, rfl⟩, ?_⟩
      intro b hb
      simp [wait_for_idle_run, webDriverWaitUntil] at hb
    | false =>
      refine ⟨⟨some (wait_for_dom_stable (T - e)), rfl⟩, ?_⟩
      intro b hb
      have h1 : some (wait_for_dom_stable (T - e)) = some b := by
        simpa [wait_for_idle_run, webDriverWaitUntil] using hb
      rw [← Option.some.inj h1]
      exact le_max_left 0 _

theorem pyRound_intCast (n : ℤ) : pyRound ((n : ℚ)) = n := by
  unfold pyRound
  rw [Int.floor_intCast, sub_self]
  norm_num

theorem wait_for_dom_stable_ten_minus_three : wait_for_dom_stable ((10 : ℚ) - 3) = 7000 := by
  have hq : ((10 : ℚ) - 3) * 1000 = ((7000 : ℤ) : ℚ) := by norm_num
  unfold wait_for_dom_stable
  rw [hq, pyRound_intCast, max_eq_right (by norm_num : (0 : ℤ) ≤ 7000)]

theorem wait_for_idle_never_raises_witness :
    wait_for_idle_run 10 (some 3) false = .ok (some 7000) ∧ (0 : ℤ) ≤ 7000 := by
  have h0 : wait_for_idle_run 10 (some 3) false =
      .ok (some (wait_for_dom_stable ((10 : ℚ) - 3))) := rfl
  have h1 : wait_for_idle_run 10 (some 3) false = .ok (some 7000) := by
    rw [h0, wait_for_dom_stable_ten_minus_three]
  exact ⟨h1, (wait_for_idle_never_raises 10 (some 3) false).2 7000 h1⟩

theorem dispatchAction_unknown (env : Env) (st : DriverState) (a : ScriptAction)
    (h : ¬ KnownName a.name) :
    dispatchAction env st a =
      (st, [], .error (.valueError ("Unknown action: ".toList ++ a.name))) := by
  unfold KnownName at h
  push_neg at h
  obtain ⟨h1, h2, h3, h4, h5, h6, h7, h8⟩ := h
  simp only [dispatchAction]
  rw [if_neg h1, if_neg h2, if_neg h3, if_neg h4, if_neg h5, if_neg h6, if_neg h7,
    if_neg h8]

/-- C3: a structural parse failure rejects the whole script before any step
runs; a step whose action name is outside the closed action set raises the
unknown-action `ValueError` with nothing executed at that step, and nothing
after the unknown step is ever executed (the run of `pre ++ [unknown] ++
post` equals the run of `pre ++ [unknown]`). -/
theorem exec_code_rejects_parse_failure_and_unknown_action :
    (∀ (env : Env) (st : DriverState) (e : PyErr),
        exec_code env st (.error e) = (st, [], .error e)) ∧
      (∀ (env : Env) (st : DriverState) (a : ScriptAction) (post : List ScriptAction),
        ¬ KnownName a.name →
        execActionsLoop env st (a :: post) =
          (st, [], .error (.valueError ("Unknown action: ".toList ++ a.name)))) ∧
      (∀ (env : Env) (st : DriverState) (pre : List ScriptAction) (a : ScriptAction)
        (post : List ScriptAction), ¬ KnownName a.name →
        execActionsLoop env st (pre ++ a :: post) = execActionsLoop env st (pre ++ [a])) := by
  refine ⟨fun env st e => rfl, ?_, ?_⟩
  · intro env st a post h
    unfold execActionsLoop
    rw [dispatchAction_unknown env st a h]
  · intro env st pre a post h
    induction pre generalizing st with
    | nil =>
      simp only [List.nil_append]
      unfold execActionsLoop
      rw [dispatchAction_unknown env st a h]
    | cons p pre ih =>
      simp only [List.cons_append]
      unfold execActionsLoop
      rcases hd : dispatchAction env st p with ⟨stp, trp, resp⟩
      cases resp with
      | error e => rfl
      | ok u =>
        cases u
        dsimp only
        rw [ih stp]

theorem exec_code_rejects_parse_failure_and_unknown_action_witness :
    ¬ KnownName "frobnicate".toList ∧
      execActionsLoop envEmpty st0
          [⟨"frobnicate".toList, {}⟩, ⟨"click".toList, {}⟩] =
        (st0, [],
          .error (.valueError ("Unknown action: ".toList ++ "frobnicate".toList))) :=
  ⟨by decide, exec_code_rejects_parse_failure_and_unknown_action.2.1 envEmpty st0
    ⟨"frobnicate".toList, {}⟩ [⟨"click".toList, {}⟩] (by decide)⟩

theorem countIdle_append (l1 l2 : List PEv) :
    countIdle (l1 ++ l2) = countIdle l1 + countIdle l2 := by
  induction l1 with
  | nil => simp [countIdle]
  | cons e tl ih =>
    cases e <;> simp [countIdle, ih]
    omega

theorem countIdle_click (env : Env) (st : DriverState) (x : Option Str) :
    countIdle (click env st x).2.1 = 0 := by
  unfold click
  split
  · rfl
  · rfl
  · split <;> rfl

theorem countIdle_hover (env : Env) (st : DriverState) (x : Option Str) :
    countIdle (hover env st x).2.1 = 0 := by
  unfold hover
  split <;> rfl

theorem countIdle_upload (env : Env) (st : DriverState) (x : Option Str) (p : Str) :
    countIdle (upload_file env st x p).2.1 = 0 := by
  unfold upload_file
  split <;> rfl

theorem countIdle_dropdown (env : Env) (st : DriverState) (x : Option Str) (v : Str) :
    countIdle (dropdown_select env st x v).2.1 = 0 := by
  unfold dropdown_select
  split
  · rfl
  · rfl
  · next st1 r heq =>
    dsimp only
    split
    · rcases hc : click env { st1 with lastHover := x } x with ⟨st3, tr, res⟩
      have h2 := countIdle_click env { st1 with lastHover := x } x
      rw [hc] at h2
      exact h2
    · split
      · rfl
      · split <;> rfl

theorem countIdle_clickAndType (env : Env) (st : DriverState) (x : Option Str) (v : Str)
    (enter : Bool) (tr : List PEv) (h : countIdle tr = 0) :
    countIdle (clickAndType env st x v enter tr).2.1 = 0 := by
  unfold clickAndType
  rcases hc : click env st x with ⟨st4, trc, res⟩
  have h2 := countIdle_click env st x
  rw [hc] at h2
  have h2' : countIdle trc = 0 := h2
  cases res with
  | error e => simp [countIdle_append, h, h2']
  | ok u => cases u; simp [countIdle_append, h, h2', countIdle]

theorem countIdle_set_value (env : Env) (st : DriverState) (x : Option Str) (v : Str)
    (enter : Bool) : countIdle (set_value env st x v enter).2.1 = 0 := by
  unfold set_value
  split
  · rfl
  · rfl
  · next st1 r heq =>
    dsimp only
    split
    · rcases hd : dropdown_select env { st1 with lastHover := x } x v with ⟨st3, tr, res⟩
      have h2 := countIdle_dropdown env { st1 with lastHover := x } x v
      rw [hd] at h2
      have h2' : countIdle tr = 0 := h2
      cases res with
      | ok u => cases u; exact h2'
      | error e => exact countIdle_clickAndType env _ x v enter tr h2'
    · split
      · rcases hu : upload_file env { st1 with lastHover := x } x v with ⟨st3, tr, res⟩
        have h2 := countIdle_upload env { st1 with lastHover := x } x v
        rw [hu] at h2
        have h2' : countIdle tr = 0 := h2
        cases res with
        | ok u => cases u; exact h2'
        | error e => exact countIdle_clickAndType env _ x v enter tr h2'
      · exact countIdle_clickAndType env _ x v enter [] rfl

theorem countIdle_scroll (env : Env) (st : DriverState) (xa : Option Str) (dir : Str) :
    countIdle (scroll env st xa dir).2.1 = 0 := by
  unfold scroll
  split
  · dsimp only
    split <;> rfl
  · rfl
  · rfl

theorem countIdle_dispatch (env : Env) (st : DriverState) (a : ScriptAction) :
    countIdle (dispatchAction env st a).2.1 = 0 := by
  unfold dispatchAction
  repeat' split
  all_goals first
    | rfl
    | exact countIdle_click _ _ _
    | exact countIdle_set_value _ _ _ _ _
    | exact countIdle_dropdown _ _ _ _
    | exact countIdle_hover _ _ _
    | exact countIdle_scroll _ _ _ _

/-- C7: steps execute in document order, one at a time — after each
successfully dispatched step the interpreter performs the idle wait before
the events of the remaining steps (the decomposition conjunct), and a
fully successful run records exactly one idle wait per step, since the
primitives themselves never wait for idle (the counting conjunct). -/
theorem idle_wait_after_each_step :
    (∀ (env : Env) (st : DriverState) (l : List ScriptAction),
        (execActionsLoop env st l).2.2 = .ok () →
        countIdle (execActionsLoop env st l).2.1 = l.length) ∧
      (∀ (env : Env) (st st1 : DriverState) (a : ScriptAction) (rest : List ScriptAction)
        (tr1 : List PEv),
        dispatchAction env st a = (st1, tr1, .ok ()) →
        execActionsLoop env st (a :: rest) =
          ((execActionsLoop env st1 rest).1,
            tr1 ++ PEv.waitedIdle :: (execActionsLoop env st1 rest).2.1,
            (execActionsLoop env st1 rest).2.2)) := by
  constructor
  · intro env st l
    induction l generalizing st with
    | nil => intro _; rfl
    | cons a rest ih =>
      intro hok
      unfold execActionsLoop at hok ⊢
      rcases hd : dispatchAction env st a with ⟨st1, tr, res⟩
      rw [hd] at hok
      cases res with
      | error e => exact absurd hok (by simp)
      | ok u =>
        cases u
        dsimp only at hok ⊢
        rcases hr : execActionsLoop env st1 rest with ⟨st2, tr2, r⟩
        rw [hr] at hok
        have hr2 : r = .ok () := hok
        have h0 := countIdle_dispatch env st a
        rw [hd] at h0
        have h0' : countIdle tr = 0 := h0
        have ihv := ih st1 (by rw [hr]; exact hr2)
        rw [hr] at ihv
        have ihv' : countIdle tr2 = rest.length := ihv
        show countIdle (tr ++ PEv.waitedIdle :: tr2) = rest.length + 1
        rw [countIdle_append, h0']
        show 0 + (countIdle tr2 + 1) = rest.length + 1
        rw [ihv']
        omega
  · intro env st st1 a rest tr1 h
    conv_lhs => unfold execActionsLoop
    rw [h]

theorem idle_wait_after_each_step_witness :
    countIdle (execActionsLoop envSel st0
        [⟨"click".toList, ⟨some "//s".toList, none⟩⟩]).2.1 = 1 :=
  idle_wait_after_each_step.1 envSel st0
    [⟨"click".toList, ⟨some "//s".toList, none⟩⟩] (by decide)

theorem typed_notin_click (env : Env) (st : DriverState) (x : Option Str) (s : Str)
    (b : Bool) : PEv.typed s b ∉ (click env st x).2.1 := by
  unfold click
  split
  · simp
  · simp
  · split <;> simp

theorem typed_notin_dropdown (env : Env) (st : DriverState) (x : Option Str) (v : Str)
    (s : Str) (b : Bool) : PEv.typed s b ∉ (dropdown_select env st x v).2.1 := by
  unfold dropdown_select
  split
  · simp
  · simp
  · next st1 r heq =>
    dsimp only
    split
    · rcases hc : click env { st1 with lastHover := x } x with ⟨st3, tr, res⟩
      have h2 := typed_notin_click env { st1 with lastHover := x } x s b
      rw [hc] at h2
      exact h2
    · split
      · simp
      · split <;> simp

theorem click_lastHover (env : Env) (st : DriverState) (x : Option Str)
    (h : st.lastHover = x) : (click env st x).1.lastHover = x := by
  unfold click
  split
  · next st1 e heq =>
    have h2 := (resolve_xpath_state env st x).2
    rw [heq] at h2
    have h2' : st1.lastHover = st.lastHover := h2
    exact h2'.trans h
  · next st1 heq =>
    have h2 := (resolve_xpath_state env st x).2
    rw [heq] at h2
    have h2' : st1.lastHover = st.lastHover := h2
    exact h2'.trans h
  · next st1 r heq =>
    dsimp only
    split <;> rfl

theorem clickAndType_lastHover (env : Env) (st : DriverState) (x : Option Str) (v : Str)
    (enter : Bool) (tr : List PEv) (h : st.lastHover = x) :
    (clickAndType env st x v enter tr).1.lastHover = x := by
  unfold clickAndType
  rcases hc : click env st x with ⟨st4, trc, res⟩
  have h2 := click_lastHover env st x h
  rw [hc] at h2
  have h2' : st4.lastHover = x := h2
  cases res with
  | error e => exact h2'
  | ok u => cases u; exact h2'

theorem dropdown_lastHover (env : Env) (st : DriverState) (x : Option Str) (v : Str)
    (h : st.lastHover = x) : (dropdown_select env st x v).1.lastHover = x := by
  unfold dropdown_select
  split
  · next st1 e heq =>
    have h2 := (resolve_xpath_state env st x).2
    rw [heq] at h2
    have h2' : st1.lastHover = st.lastHover := h2
    exact h2'.trans h
  · next st1 heq =>
    have h2 := (resolve_xpath_state env st x).2
    rw [heq] at h2
    have h2' : st1.lastHover = st.lastHover := h2
    exact h2'.trans h
  · next st1 r heq =>
    dsimp only
    split
    · rcases hc : click env { st1 with lastHover := x } x with ⟨st3, tr, res⟩
      have h2 := click_lastHover env { st1 with lastHover := x } x rfl
      rw [hc] at h2
      have h2' : st3.lastHover = x := h2
      exact h2'
    · split
      · rfl
      · split <;> rfl

theorem upload_lastHover (env : Env) (st : DriverState) (x : Option Str) (p : Str)
    (h : st.lastHover = x) : (upload_file env st x p).1.lastHover = x := by
  unfold upload_file
  split
  · next st1 e heq =>
    have h2 := (resolve_xpath_state env st x).2
    rw [heq] at h2
    have h2' : st1.lastHover = st.lastHover := h2
    exact h2'.trans h
  · next st1 heq =>
    have h2 := (resolve_xpath_state env st x).2
    rw [heq] at h2
    have h2' : st1.lastHover = st.lastHover := h2
    exact h2'.trans h
  · rfl

theorem set_value_lastHover_of_resolved (env : Env) (st st1 : DriverState) (x : Option Str)
    (v : Str) (enter : Bool) (r : Resolved)
    (h : resolve_xpath env st x = (st1, .ok (some r))) :
    (set_value env st x v enter).1.lastHover = x := by
  unfold set_value
  rw [h]
  dsimp only
  split
  · rcases hd : dropdown_select env { st1 with lastHover := x } x v with ⟨st3, tr, res⟩
    have h2 := dropdown_lastHover env { st1 with lastHover := x } x v rfl
    rw [hd] at h2
    have h3 : st3.lastHover = x := h2
    cases res with
    | ok u => cases u; exact h3
    | error e => exact clickAndType_lastHover env (switch_default_frame st3) x v enter tr h3
  · split
    · rcases hu : upload_file env { st1 with lastHover := x } x v with ⟨st3, tr, res⟩
      have h2 := upload_lastHover env { st1 with lastHover := x } x v rfl
      rw [hu] at h2
      have h3 : st3.lastHover = x := h2
      cases res with
      | ok u => cases u; exact h3
      | error e => exact clickAndType_lastHover env (switch_default_frame st3) x v enter tr h3
    · exact clickAndType_lastHover env
        (switch_default_frame { st1 with lastHover := x }) x v enter [] rfl

theorem dropdown_lastHover_of_resolved (env : Env) (st st1 : DriverState) (x : Option Str)
    (v : Str) (r : Resolved) (h : resolve_xpath env st x = (st1, .ok (some r))) :
    (dropdown_select env st x v).1.lastHover = x := by
  unfold dropdown_select
  rw [h]
  dsimp only
  split
  · rcases hc : click env { st1 with lastHover := x } x with ⟨st3, tr, res⟩
    have h2 := click_lastHover env { st1 with lastHover := x } x rfl
    rw [hc] at h2
    exact h2
  · split
    · rfl
    · split <;> rfl

theorem upload_lastHover_of_resolved (env : Env) (st st1 : DriverState) (x : Option Str)
    (p : Str) (r : Resolved) (h : resolve_xpath env st x = (st1, .ok (some r))) :
    (upload_file env st x p).1.lastHover = x := by
  unfold upload_file
  rw [h]
  rfl

theorem scroll_anchor_default (env : Env) (st : DriverState) :
    get_scroll_anchor env st none = get_scroll_anchor env st st.lastHover := by
  unfold get_scroll_anchor
  cases hl : st.lastHover with
  | none => rfl
  | some s =>
    dsimp only
    rw [ite_self]

/-- C8 counterexample: on a locator resolving to a button whose click is
intercepted and whose move-then-click fallback also fails, `dropdownSelect`
raises the wrapped click failure — refuting "never raises" for non-select
elements. -/
theorem dropdown_select_counterexample :
    dropdown_select envBtn st0 (some "//b".toList) "v".toList =
      (⟨[], 2, some "//b".toList⟩, [], .error (.clickFailed "//b".toList)) := by
  decide

/-- C8 (amended): `dropdownSelect` on a locator resolving to a non-select
element never raises on account of the tag — it degrades to the plain
`click` path on that locator (from the still-descended frame context) and
raises only whatever that click raises; on a select element it selects by
option value, falls back to selecting by visible text, and raises a hard
error exactly when both lookups fail. -/
theorem dropdown_select_behavior :
    ∀ (env : Env) (st st1 : DriverState) (x : Option Str) (v : Str) (r : Resolved),
      resolve_xpath env st x = (st1, .ok (some r)) →
      ((r.elem.tag ≠ "select".toList →
          dropdown_select env st x v =
            (switch_default_frame (click env { st1 with lastHover := x } x).1,
              (click env { st1 with lastHover := x } x).2.1,
              (click env { st1 with lastHover := x } x).2.2)) ∧
        (r.elem.tag = "select".toList → v ∈ r.elem.optionValues →
          dropdown_select env st x v =
            (switch_default_frame { st1 with lastHover := x },
              [.selectedByValue v], .ok ())) ∧
        (r.elem.tag = "select".toList → v ∉ r.elem.optionValues →
          v ∈ r.elem.optionTexts →
          dropdown_select env st x v =
            (switch_default_frame { st1 with lastHover := x },
              [.selectedByText v], .ok ())) ∧
        (r.elem.tag = "select".toList → v ∉ r.elem.optionValues →
          v ∉ r.elem.optionTexts →
          dropdown_select env st x v =
            (switch_default_frame { st1 with lastHover := x }, [],
              .error (.noSuchElement "could not locate option".toList)))) := by
  intro env st st1 x v r h
  refine ⟨?_, ?_, ?_, ?_⟩
  · intro htag
    unfold dropdown_select
    rw [h]
    dsimp only
    rw [if_pos htag]
  · intro htag hv
    unfold dropdown_select
    rw [h]
    dsimp only
    rw [if_neg (fun hne => hne htag), if_pos hv]
  · intro htag hv htxt
    unfold dropdown_select
    rw [h]
    dsimp only
    rw [if_neg (fun hne => hne htag), if_neg hv, if_pos htxt]
  · intro htag hv htxt
    unfold dropdown_select
    rw [h]
    dsimp only
    rw [if_neg (fun hne => hne htag), if_neg hv, if_neg htxt]

theorem dropdown_select_behavior_witness :
    dropdown_select envSel st0 (some "//s".toList) "a".toList =
      (⟨[], 1, some "//s".toList⟩, [.selectedByValue "a".toList], .ok ()) := by
  have h := (dropdown_select_behavior envSel st0 st0 (some "//s".toList) "a".toList
      ⟨"//s".toList, selElem⟩ (by decide)).2.1 (by decide) (by decide)
  exact h

/-- C9 counterexample: on a select element with no option of value or
visible text `"zz"`, the delegated `dropdown_select` raises, the bare
`except: pass` swallows the error, and `set_value` falls through to the
click-and-type path — the direct key-sequence typing path IS performed on
a select-tagged element. -/
theorem set_value_select_counterexample :
    set_value envSel st0 (some "//s".toList) "zz".toList false =
      (⟨[], 3, some "//s".toList⟩,
        [.clicked (some "//s".toList), .typed "zz".toList false], .ok ()) := by
  decide

/-- C9 (amended): `setValue` on a select-tagged element delegates to
`dropdownSelect`; when the delegation succeeds, its result is returned and
no typing-path key sequence occurs; when the delegation raises, the bare
`except: pass` swallows the error and `setValue` falls through to the
click-and-type path (clicking the locator and typing the value). -/
theorem set_value_select_delegates :
    ∀ (env : Env) (st st1 : DriverState) (x : Option Str) (v : Str) (enter : Bool)
      (r : Resolved),
      resolve_xpath env st x = (st1, .ok (some r)) →
      r.elem.tag = "select".toList →
      ((∀ (st3 : DriverState) (tr : List PEv),
          dropdown_select env { st1 with lastHover := x } x v = (st3, tr, .ok ()) →
          set_value env st x v enter = (switch_default_frame st3, tr, .ok ()) ∧
            ∀ (s : Str) (b : Bool), PEv.typed s b ∉ tr) ∧
        (∀ (st3 : DriverState) (tr : List PEv) (e : PyErr),
          dropdown_select env { st1 with lastHover := x } x v = (st3, tr, .error e) →
          set_value env st x v enter =
              clickAndType env (switch_default_frame st3) x v enter tr ∧
            ∀ (st4 : DriverState) (trc : List PEv),
              click env (switch_default_frame st3) x = (st4, trc, .ok ()) →
              set_value env st x v enter =
                (st4, tr ++ trc ++ [.typed v enter], .ok ()))) := by
  intro env st st1 x v enter r h htag
  constructor
  · intro st3 tr hd
    constructor
    · unfold set_value
      rw [h]
      dsimp only
      rw [if_pos htag, hd]
    · intro s b
      have h2 := typed_notin_dropdown env { st1 with lastHover := x } x v s b
      rw [hd] at h2
      exact h2
  · intro st3 tr e hd
    have hfall : set_value env st x v enter =
        clickAndType env (switch_default_frame st3) x v enter tr := by
      unfold set_value
      rw [h]
      dsimp only
      rw [if_pos htag, hd]
    refine ⟨hfall, ?_⟩
    intro st4 trc hc
    rw [hfall]
    unfold clickAndType
    rw [hc]

theorem set_value_select_delegates_witness :
    set_value envSel st0 (some "//s".toList) "a".toList false =
      (⟨[], 2, some "//s".toList⟩, [.selectedByValue "a".toList], .ok ()) := by
  have h := ((set_value_select_delegates envSel st0 st0 (some "//s".toList) "a".toList
      false ⟨"//s".toList, selElem⟩ (by decide) (by decide)).1
      ⟨[], 1, some "//s".toList⟩ [.selectedByValue "a".toList] (by decide)).1
  exact h

/-- C10: every `set_value`, `dropdown_select` and `upload_file` call whose
locator resolves successfully records that locator as the session's
last-hovered locator (beyond the documented hover/scroll/click mutations),
and an anchor-less `get_scroll_anchor` call resolves exactly the session's
last-hovered locator. -/
theorem primitives_record_last_hover :
    ∀ (env : Env) (st st1 : DriverState) (x : Option Str) (v path : Str) (enter : Bool)
      (r : Resolved),
      resolve_xpath env st x = (st1, .ok (some r)) →
      ((set_value env st x v enter).1.lastHover = x ∧
        (dropdown_select env st x v).1.lastHover = x ∧
        (upload_file env st x path).1.lastHover = x ∧
        ∀ st' : DriverState,
          get_scroll_anchor env st' none = get_scroll_anchor env st' st'.lastHover) := by
  intro env st st1 x v path enter r h
  exact ⟨set_value_lastHover_of_resolved env st st1 x v enter r h,
    dropdown_lastHover_of_resolved env st st1 x v r h,
    upload_lastHover_of_resolved env st st1 x path r h,
    fun st' => scroll_anchor_default env st'⟩

theorem primitives_record_last_hover_witness :
    (upload_file envSel st0 (some "//s".toList) "f.txt".toList).1.lastHover =
      some "//s".toList :=
  (primitives_record_last_hover envSel st0 st0 (some "//s".toList) "a".toList
    "f.txt".toList false ⟨"//s".toList, selElem⟩ (by decide)).2.2.1

/-- C6: `resolve_xpath` raises element-not-found for a missing or empty
locator, but for a locator whose text before the next iframe marker is
empty (here `"iframe//b"`) it returns `None` — a non-error, non-element
result, contradicting its own `-> XPathResolved` annotation (every
`with`-statement caller then crashes with `AttributeError` instead of the
documented element-not-found failure). -/
theorem resolve_xpath_empty_segment_returns_none :
    resolve_xpath envEmpty st0 (some "iframe//b".toList) = (st0, .ok none) ∧
      resolve_xpath envEmpty st0 none =
        (st0, .error (.noSuchElement "xpath is missing".toList)) ∧
      resolve_xpath envEmpty st0 (some []) =
        (st0, .error (.noSuchElement "xpath is missing".toList)) :=
  ⟨by decide, rfl, rfl⟩

end Yoink
